import Mathlib

/-!
Shallow embedding of `src/simulacion_boxes.py` (TP6-MyS): a discrete-tick
simulator of a public-attention facility with parallel service boxes, a FIFO
queue, random arrivals, normally distributed service times, and abandonment
after a maximum waiting time.

Modelling decisions:
* Python integers become `Int` (timestamps, durations) or `Nat` (counts, ids).
* The two random sources are made explicit: the Bernoulli arrival decision
  `random.random() < PROB_INGRESO` is a `Bool` parameter, and the truncated
  normal draw `int(np.random.normal(...))` is an `Int` parameter (the engine
  only ever applies `max 60` on top of it, in `generar_tiempo_atencion`).
* The animation-only fields (`posicion_x`, `posicion_y`, matplotlib state) and
  the dead field `simulacion_activa` are omitted: they are presentation state
  never read by the engine.
* Python objects are mutable and aliased between `cola`, the boxes and the
  record lists; the embedding stores immutable snapshots.  Terminal records
  (`clientes_atendidos`, `clientes_abandonaron`) receive the fully stamped
  final value of each customer, `cola` and the boxes hold the current value,
  and `clientes_ingresados` holds the arrival-time snapshot.
-/

set_option autoImplicit false

namespace SimBoxes

/-- Embeds the Python dataclass `Cliente` (animation positions omitted). -/
structure Cliente where
  id : Nat
  tiempo_ingreso : Int
  tiempo_inicio_atencion : Option Int := none
  tiempo_fin_atencion : Option Int := none
  box_asignado : Option Nat := none
  abandono : Bool := false
  tiempo_abandono : Option Int := none
deriving DecidableEq

/-- Embeds the `Cliente.tiempo_espera` property. -/
def Cliente.tiempo_espera (c : Cliente) : Option Int :=
  match c.tiempo_inicio_atencion with
  | some i => some (i - c.tiempo_ingreso)
  | none =>
    match c.abandono, c.tiempo_abandono with
    | true, some a => some (a - c.tiempo_ingreso)
    | _, _ => none

/-- Embeds the `Cliente.tiempo_atencion` property. -/
def Cliente.tiempo_atencion (c : Cliente) : Option Int :=
  match c.tiempo_inicio_atencion, c.tiempo_fin_atencion with
  | some i, some f => some (f - i)
  | _, _ => none

/-- Embeds the Python dataclass `Box` (animation positions omitted). -/
structure Box where
  id : Nat
  ocupado : Bool := false
  cliente_actual : Option Cliente := none
  tiempo_fin_atencion : Option Int := none
deriving DecidableEq

/-- Embeds the `estadisticas` dictionary.  The float `inf` sentinels of the
minimum fields become `none`. -/
structure Estadisticas where
  clientes_ingresados : Nat
  clientes_atendidos : Nat
  clientes_abandonaron : Nat
  tiempo_min_atencion : Option Int
  tiempo_max_atencion : Int
  tiempo_min_espera : Option Int
  tiempo_max_espera : Int
  costo_total : Int
deriving DecidableEq

/-- Simulation parameters, fixed in `__init__` and never mutated:
`DURACION_SIMULACION = 4 * 3600`. -/
def DURACION_SIMULACION : Int := 4 * 3600

/-- Per-second arrival probability `PROB_INGRESO = 1/144` (only the boolean
outcome of the Bernoulli draw enters the engine). -/
def PROB_INGRESO : Rat := 1 / 144

/-- Maximum waiting time before abandonment, `TIEMPO_MAX_ESPERA = 30 * 60`. -/
def TIEMPO_MAX_ESPERA : Int := 30 * 60

/-- Mean of the service-time normal distribution, `MEDIA_ATENCION = 10 * 60`. -/
def MEDIA_ATENCION : Int := 10 * 60

/-- Standard deviation of the service-time distribution, `DESVIO_ATENCION = 5 * 60`. -/
def DESVIO_ATENCION : Int := 5 * 60

/-- Daily cost per box, `COSTO_BOX = 1000`. -/
def COSTO_BOX : Int := 1000

/-- Loss per abandoning customer, `PERDIDA_CLIENTE = 10000`. -/
def PERDIDA_CLIENTE : Int := 10000

/-- The mutable state of a `SimuladorAtencionPublico` instance (engine part
only; matplotlib fields omitted). -/
structure SimuladorAtencionPublico where
  num_boxes : Nat
  velocidad_animacion : Rat
  boxes : List Box
  cola : List Cliente
  clientes_ingresados : List Cliente
  clientes_atendidos : List Cliente
  clientes_abandonaron : List Cliente
  tiempo_actual : Int
  contador_clientes : Nat
  estadisticas : Estadisticas
deriving DecidableEq

/-- The freshly initialised statistics dictionary. -/
def estadisticas_iniciales : Estadisticas where
  clientes_ingresados := 0
  clientes_atendidos := 0
  clientes_abandonaron := 0
  tiempo_min_atencion := none
  tiempo_max_atencion := 0
  tiempo_min_espera := none
  tiempo_max_espera := 0
  costo_total := 0

/-- The state built by `__init__` after the validation passed. -/
def estado_inicial (num_boxes : Nat) (velocidad_animacion : Rat) : SimuladorAtencionPublico where
  num_boxes := num_boxes
  velocidad_animacion := velocidad_animacion
  boxes := (List.range num_boxes).map (fun i => { id := i })
  cola := []
  clientes_ingresados := []
  clientes_atendidos := []
  clientes_abandonaron := []
  tiempo_actual := 0
  contador_clientes := 0
  estadisticas := estadisticas_iniciales

/-- Embeds `SimuladorAtencionPublico.__init__`: raises (returns `none`) when
`not 1 <= num_boxes <= 10`, otherwise returns the fresh engine.  The
`velocidad_animacion` float parameter is stored without any validation. -/
def SimuladorAtencionPublico.inicializar (num_boxes : Int) (velocidad_animacion : Rat) :
    Option SimuladorAtencionPublico :=
  if 1 ≤ num_boxes ∧ num_boxes ≤ 10 then
    some (estado_inicial num_boxes.toNat velocidad_animacion)
  else
    none

/-- Embeds `generar_tiempo_atencion`; `draw` is the truncated normal sample
`int(np.random.normal(MEDIA_ATENCION, DESVIO_ATENCION))`. -/
def generar_tiempo_atencion (draw : Int) : Int :=
  max 60 draw

/-- Embeds `procesar_llegadas`; `llega` is the outcome of
`random.random() < self.PROB_INGRESO`. -/
def SimuladorAtencionPublico.procesar_llegadas (llega : Bool)
    (s : SimuladorAtencionPublico) : SimuladorAtencionPublico :=
  if s.tiempo_actual < DURACION_SIMULACION then
    if llega then
      let cliente : Cliente := { id := s.contador_clientes, tiempo_ingreso := s.tiempo_actual }
      { s with
          contador_clientes := s.contador_clientes + 1
          clientes_ingresados := s.clientes_ingresados ++ [cliente]
          cola := s.cola ++ [cliente]
          estadisticas := { s.estadisticas with
              clientes_ingresados := s.estadisticas.clientes_ingresados + 1 } }
    else s
  else s

/-- The loop body of `asignar_clientes_a_boxes`, walking the box list in order
while threading the queue; `k` counts the service draws consumed this tick. -/
def asignarAux (t : Int) (durs : Nat → Int) :
    Nat → List Box → List Cliente → List Box × List Cliente
  | _, [], cola => ([], cola)
  | k, box :: resto, cola =>
    if box.ocupado then
      let r := asignarAux t durs k resto cola
      (box :: r.1, r.2)
    else
      match cola with
      | [] =>
        let r := asignarAux t durs k resto []
        (box :: r.1, r.2)
      | cliente :: colaResto =>
        let tiempo_atencion := generar_tiempo_atencion (durs k)
        let cliente' := { cliente with
            tiempo_inicio_atencion := some t
            box_asignado := some box.id }
        let box' := { box with
            ocupado := true
            cliente_actual := some cliente'
            tiempo_fin_atencion := some (t + tiempo_atencion) }
        let r := asignarAux t durs (k + 1) resto colaResto
        (box' :: r.1, r.2)

/-- Embeds `asignar_clientes_a_boxes`; `durs` gives the successive service
draws consumed during this tick. -/
def SimuladorAtencionPublico.asignar_clientes_a_boxes (durs : Nat → Int)
    (s : SimuladorAtencionPublico) : SimuladorAtencionPublico :=
  let r := asignarAux s.tiempo_actual durs 0 s.boxes s.cola
  { s with boxes := r.1, cola := r.2 }

/-- The per-box firing condition of `procesar_finalizacion_atencion`:
`box.ocupado and self.tiempo_actual >= box.tiempo_fin_atencion`.  When the
flag is set but the completion time or the customer reference is missing the
Python code would raise (comparison with / attribute access on `None`); such
states are unreachable (see `Invariante`), and the embedding keeps the box
untouched there. -/
def debe_finalizar (t : Int) (b : Box) : Bool :=
  b.ocupado && b.tiempo_fin_atencion.any (fun f => decide (f ≤ t)) && b.cliente_actual.isSome

/-- The effect of the `procesar_finalizacion_atencion` loop body on one box. -/
def box_liberado (t : Int) (b : Box) : Box :=
  if debe_finalizar t b then
    { b with ocupado := false, cliente_actual := none, tiempo_fin_atencion := none }
  else b

/-- The customers completed at tick `t`, stamped with their service-end time,
in box order. -/
def clientes_finalizados (t : Int) (bs : List Box) : List Cliente :=
  ((bs.filter (debe_finalizar t)).filterMap (fun b => b.cliente_actual)).map
    (fun c => { c with tiempo_fin_atencion := some t })

/-- Python truthiness of the optional integer `cliente.tiempo_atencion`
(`if tiempo_atencion:`): `None` and `0` are falsy. -/
def pyTruthy : Option Int → Bool
  | none => false
  | some v => v != 0

/-- One `min` update of an optional-minimum statistic whose empty state is the
float `inf` sentinel. -/
def minOpcional : Option Int → Int → Option Int
  | none, v => some v
  | some m, v => some (min m v)

/-- The statistics update performed for one completed customer inside
`procesar_finalizacion_atencion`. -/
def actualizar_stats_finalizacion (c : Cliente) (st : Estadisticas) : Estadisticas :=
  let st1 := { st with clientes_atendidos := st.clientes_atendidos + 1 }
  let ta := c.tiempo_atencion
  let st2 :=
    if pyTruthy ta then
      { st1 with
          tiempo_min_atencion := minOpcional st1.tiempo_min_atencion (ta.getD 0)
          tiempo_max_atencion := max st1.tiempo_max_atencion (ta.getD 0) }
    else st1
  let te := c.tiempo_espera
  if te.isSome then
    { st2 with
        tiempo_min_espera := minOpcional st2.tiempo_min_espera (te.getD 0)
        tiempo_max_espera := max st2.tiempo_max_espera (te.getD 0) }
  else st2

/-- Embeds `procesar_finalizacion_atencion`.  The Python loop touches each box
independently, appends the completed customers to `clientes_atendidos` in box
order and folds the statistics updates in the same order. -/
def SimuladorAtencionPublico.procesar_finalizacion_atencion
    (s : SimuladorAtencionPublico) : SimuladorAtencionPublico :=
  let terminados := clientes_finalizados s.tiempo_actual s.boxes
  { s with
      boxes := s.boxes.map (box_liberado s.tiempo_actual)
      clientes_atendidos := s.clientes_atendidos ++ terminados
      estadisticas := terminados.foldl (fun st c => actualizar_stats_finalizacion c st)
        s.estadisticas }

/-- The abandonment test of `procesar_abandonos`:
`tiempo_espera >= self.TIEMPO_MAX_ESPERA`. -/
def cond_abandono (t : Int) (c : Cliente) : Bool :=
  decide (TIEMPO_MAX_ESPERA ≤ t - c.tiempo_ingreso)

/-- The stamping performed on an abandoning customer. -/
def marcar_abandono (t : Int) (c : Cliente) : Cliente :=
  { c with abandono := true, tiempo_abandono := some t }

/-- Embeds `procesar_abandonos`.  The Python code collects the overdue
customers, appends their stamped versions to the record, and then removes each
of them from the deque with `remove`; since every collected customer occurs in
the queue and all of them are removed, this equals keeping exactly the
non-overdue customers in their original order. -/
def SimuladorAtencionPublico.procesar_abandonos
    (s : SimuladorAtencionPublico) : SimuladorAtencionPublico :=
  let removidos := s.cola.filter (cond_abandono s.tiempo_actual)
  { s with
      cola := s.cola.filter (fun c => !(cond_abandono s.tiempo_actual c))
      clientes_abandonaron :=
        s.clientes_abandonaron ++ removidos.map (marcar_abandono s.tiempo_actual)
      estadisticas := { s.estadisticas with
          clientes_abandonaron := s.estadisticas.clientes_abandonaron + removidos.length } }

/-- Embeds `calcular_costos`. -/
def SimuladorAtencionPublico.calcular_costos
    (s : SimuladorAtencionPublico) : SimuladorAtencionPublico :=
  let costo_boxes := (s.num_boxes : Int) * COSTO_BOX
  let costo_perdidas := (s.clientes_abandonaron.length : Int) * PERDIDA_CLIENTE
  { s with estadisticas := { s.estadisticas with costo_total := costo_boxes + costo_perdidas } }

/-- Embeds `simular_paso`: one tick, in the fixed order arrivals, assignment,
completion, abandonment, clock advance. -/
def SimuladorAtencionPublico.simular_paso (llega : Bool) (durs : Nat → Int)
    (s : SimuladorAtencionPublico) : SimuladorAtencionPublico :=
  let s1 := s.procesar_llegadas llega
  let s2 := s1.asignar_clientes_a_boxes durs
  let s3 := s2.procesar_finalizacion_atencion
  let s4 := s3.procesar_abandonos
  { s4 with tiempo_actual := s4.tiempo_actual + 1 }

/-- Embeds `condicion_finalizacion`. -/
def SimuladorAtencionPublico.condicion_finalizacion (s : SimuladorAtencionPublico) : Bool :=
  decide (DURACION_SIMULACION ≤ s.tiempo_actual) && s.cola.isEmpty
    && !(s.boxes.any (fun b => b.ocupado))

/-- Iterates `simular_paso` for `n` ticks; `llegas k` and `durs k` are the
random draws consumed at the `k`-th executed tick. -/
def correr (llegas : Nat → Bool) (durs : Nat → Nat → Int) (k : Nat) :
    Nat → SimuladorAtencionPublico → SimuladorAtencionPublico
  | 0, s => s
  | n + 1, s => correr llegas durs (k + 1) n (s.simular_paso (llegas k) (durs k))

/-- Embeds the loop of `ejecutar_simulacion_rapida`
(`while not condicion_finalizacion: simular_paso`, then `calcular_costos`),
with explicit fuel; if the fuel runs out the current state is returned. -/
def ejecutar_simulacion_rapida (llegas : Nat → Bool) (durs : Nat → Nat → Int) (k : Nat) :
    Nat → SimuladorAtencionPublico → SimuladorAtencionPublico
  | 0, s => s
  | n + 1, s =>
    if s.condicion_finalizacion then s.calcular_costos
    else ejecutar_simulacion_rapida llegas durs (k + 1) n (s.simular_paso (llegas k) (durs k))

/-- The reachable engine states: a freshly constructed simulator followed by
any number of `simular_paso` transitions under arbitrary random draws. -/
inductive Alcanzable : SimuladorAtencionPublico → Prop
  | inicial (num_boxes : Int) (velocidad : Rat) (s : SimuladorAtencionPublico) :
      SimuladorAtencionPublico.inicializar num_boxes velocidad = some s → Alcanzable s
  | paso (llega : Bool) (durs : Nat → Int) (s : SimuladorAtencionPublico) :
      Alcanzable s → Alcanzable (s.simular_paso llega durs)

/-- Number of occupied boxes. -/
def cuenta_ocupados (bs : List Box) : Nat :=
  (bs.filter (fun b => b.ocupado)).length

@[simp]
theorem cuenta_ocupados_nil : cuenta_ocupados [] = 0 := rfl

@[simp]
theorem cuenta_ocupados_cons (b : Box) (l : List Box) :
    cuenta_ocupados (b :: l) = (if b.ocupado then 1 else 0) + cuenta_ocupados l := by
  simp only [cuenta_ocupados, List.filter_cons]
  by_cases h : b.ocupado <;> simp [h, Nat.add_comm]

/-- State of a customer while it waits in the queue: no terminal disposition
yet, admitted before the horizon, and not yet overdue by more than the
threshold at the current tick. -/
def ColaOk (t : Int) (c : Cliente) : Prop :=
  c.tiempo_inicio_atencion = none ∧ c.abandono = false ∧ c.box_asignado = none ∧
    c.tiempo_ingreso < DURACION_SIMULACION ∧ t ≤ c.tiempo_ingreso + TIEMPO_MAX_ESPERA

/-- State of a well-formed box at tick `t`: when occupied it holds a customer
whose service started at least 60 seconds before the scheduled completion
tick, which has not passed yet. -/
def BoxOk (t : Int) (b : Box) : Prop :=
  b.ocupado = true →
    ∃ c f i, b.cliente_actual = some c ∧ b.tiempo_fin_atencion = some f ∧
      c.tiempo_inicio_atencion = some i ∧ i + 60 ≤ f ∧ t ≤ f ∧ c.abandono = false

/-- State of a customer in the served record. -/
def AtendidoOk (c : Cliente) : Prop :=
  ∃ i f, c.tiempo_inicio_atencion = some i ∧ c.tiempo_fin_atencion = some f ∧
    i + 60 ≤ f ∧ c.abandono = false

/-- State of a customer in the abandoned record. -/
def AbandonoOk (c : Cliente) : Prop :=
  c.abandono = true ∧ c.tiempo_inicio_atencion = none ∧ c.box_asignado = none ∧
    ∃ a, c.tiempo_abandono = some a ∧ TIEMPO_MAX_ESPERA ≤ a - c.tiempo_ingreso

/-- State of a free box: no customer reference and no scheduled completion. -/
def BoxLibre (b : Box) : Prop :=
  b.ocupado = false → b.cliente_actual = none ∧ b.tiempo_fin_atencion = none

/-- The global state invariant of the engine, preserved by `simular_paso`. -/
structure Invariante (s : SimuladorAtencionPublico) : Prop where
  conserva : s.cola.length + cuenta_ocupados s.boxes + s.clientes_atendidos.length +
    s.clientes_abandonaron.length = s.clientes_ingresados.length
  contador_eq : s.contador_clientes = s.clientes_ingresados.length
  cola_ok : ∀ c ∈ s.cola, ColaOk s.tiempo_actual c
  boxes_ok : ∀ b ∈ s.boxes, BoxOk s.tiempo_actual b
  libres_ok : ∀ b ∈ s.boxes, BoxLibre b
  atendidos_ok : ∀ c ∈ s.clientes_atendidos, AtendidoOk c
  abandonaron_ok : ∀ c ∈ s.clientes_abandonaron, AbandonoOk c
  tiempo_nonneg : 0 ≤ s.tiempo_actual

theorem valor_duracion : DURACION_SIMULACION = 14400 := rfl

theorem valor_max_espera : TIEMPO_MAX_ESPERA = 1800 := rfl

theorem invariante_inicial (nb : Nat) (v : Rat) : Invariante (estado_inicial nb v) := by
  refine ⟨?_, rfl, ?_, ?_, ?_, ?_, ?_, ?_⟩ <;>
    simp [estado_inicial, cuenta_ocupados, List.filter_eq_nil_iff, List.mem_map, BoxOk, BoxLibre]

theorem procesar_llegadas_invariante (llega : Bool) (s : SimuladorAtencionPublico)
    (h : Invariante s) : Invariante (s.procesar_llegadas llega) := by
  unfold SimuladorAtencionPublico.procesar_llegadas
  split
  case isFalse => exact h
  case isTrue ht =>
    split
    case isFalse => exact h
    case isTrue =>
      obtain ⟨h1, h2, h3, h4, h4b, h5, h6, h7⟩ := h
      dsimp only
      refine ⟨?_, ?_, ?_, h4, h4b, h5, h6, h7⟩
      · simp only [List.length_append, List.length_cons, List.length_nil]
        omega
      · simp only [List.length_append, List.length_cons, List.length_nil]
        omega
      · intro c hc
        simp only [List.mem_append, List.mem_cons, List.not_mem_nil, or_false] at hc
        rcases hc with hc | hc
        · exact h3 c hc
        · subst hc
          refine ⟨rfl, rfl, rfl, ht, ?_⟩
          simp only [valor_max_espera]
          omega

theorem asignarAux_nil (t : Int) (durs : Nat → Int) :
    ∀ (bs : List Box) (k : Nat), asignarAux t durs k bs [] = (bs, []) := by
  intro bs
  induction bs with
  | nil => intro k; rfl
  | cons b resto ih =>
    intro k
    by_cases hb : b.ocupado <;> simp [asignarAux, hb, ih]

theorem asignarAux_conserva (t : Int) (durs : Nat → Int) :
    ∀ (bs : List Box) (cola : List Cliente) (k : Nat),
      (asignarAux t durs k bs cola).2.length + cuenta_ocupados (asignarAux t durs k bs cola).1
        = cola.length + cuenta_ocupados bs := by
  intro bs
  induction bs with
  | nil => intro cola k; simp [asignarAux]
  | cons b resto ih =>
    intro cola k
    by_cases hb : b.ocupado
    · have := ih cola k
      simp only [asignarAux, hb, if_true, cuenta_ocupados_cons]
      omega
    · cases cola with
      | nil =>
        have := ih [] k
        simp only [asignarAux, hb, if_false, cuenta_ocupados_cons, Bool.false_eq_true]
        omega
      | cons cliente colaResto =>
        have := ih colaResto (k + 1)
        simp only [asignarAux, hb, if_false, cuenta_ocupados_cons, List.length_cons,
          Bool.false_eq_true, if_true]
        omega

theorem asignarAux_cola_subconjunto (t : Int) (durs : Nat → Int) :
    ∀ (bs : List Box) (cola : List Cliente) (k : Nat),
      ∀ c ∈ (asignarAux t durs k bs cola).2, c ∈ cola := by
  intro bs
  induction bs with
  | nil => intro cola k c hc; simpa [asignarAux] using hc
  | cons b resto ih =>
    intro cola k c hc
    by_cases hb : b.ocupado
    · simp only [asignarAux, hb, if_true] at hc
      exact ih cola k c hc
    · cases cola with
      | nil =>
        simp only [asignarAux, hb, Bool.false_eq_true, if_false] at hc
        simpa using ih [] k c hc
      | cons cliente colaResto =>
        simp only [asignarAux, hb, Bool.false_eq_true, if_false] at hc
        exact List.mem_cons_of_mem _ (ih colaResto (k + 1) c hc)

theorem asignarAux_boxes_ok (t : Int) (durs : Nat → Int) :
    ∀ (bs : List Box) (cola : List Cliente) (k : Nat),
      (∀ c ∈ cola, c.abandono = false) → (∀ b ∈ bs, BoxOk t b) →
      ∀ b ∈ (asignarAux t durs k bs cola).1, BoxOk t b := by
  intro bs
  induction bs with
  | nil => intro cola k _ _ b hb; simp [asignarAux] at hb
  | cons bx resto ih =>
    intro cola k hcola hbs b hb
    by_cases hocc : bx.ocupado
    · simp only [asignarAux, hocc, if_true, List.mem_cons] at hb
      rcases hb with hb | hb
      · exact hb ▸ hbs bx (by simp)
      · exact ih cola k hcola (fun x hx => hbs x (by simp [hx])) b hb
    · cases cola with
      | nil =>
        simp only [asignarAux, hocc, Bool.false_eq_true, if_false, List.mem_cons] at hb
        rcases hb with hb | hb
        · exact hb ▸ hbs bx (by simp)
        · exact ih [] k (by simp) (fun x hx => hbs x (by simp [hx])) b hb
      | cons cliente colaResto =>
        simp only [asignarAux, hocc, Bool.false_eq_true, if_false, List.mem_cons] at hb
        rcases hb with hb | hb
        · subst hb
          intro _
          refine ⟨_, _, t, rfl, rfl, rfl, ?_, ?_, ?_⟩
          · have h60 : (60 : Int) ≤ generar_tiempo_atencion (durs k) := le_max_left _ _
            omega
          · have h60 : (60 : Int) ≤ generar_tiempo_atencion (durs k) := le_max_left _ _
            omega
          · exact hcola cliente (by simp)
        · exact ih colaResto (k + 1) (fun x hx => hcola x (by simp [hx]))
            (fun x hx => hbs x (by simp [hx])) b hb

theorem asignarAux_libres (t : Int) (durs : Nat → Int) :
    ∀ (bs : List Box) (cola : List Cliente) (k : Nat),
      (∀ b ∈ bs, BoxLibre b) → ∀ b ∈ (asignarAux t durs k bs cola).1, BoxLibre b := by
  intro bs
  induction bs with
  | nil => intro cola k _ b hb; simp [asignarAux] at hb
  | cons bx resto ih =>
    intro cola k hbs b hb
    by_cases hocc : bx.ocupado
    · simp only [asignarAux, hocc, if_true, List.mem_cons] at hb
      rcases hb with hb | hb
      · exact hb ▸ hbs bx (by simp)
      · exact ih cola k (fun x hx => hbs x (by simp [hx])) b hb
    · cases cola with
      | nil =>
        simp only [asignarAux, hocc, Bool.false_eq_true, if_false, List.mem_cons] at hb
        rcases hb with hb | hb
        · exact hb ▸ hbs bx (by simp)
        · exact ih [] k (fun x hx => hbs x (by simp [hx])) b hb
      | cons cliente colaResto =>
        simp only [asignarAux, hocc, Bool.false_eq_true, if_false, List.mem_cons] at hb
        rcases hb with hb | hb
        · subst hb
          intro hfalso
          simp at hfalso
        · exact ih colaResto (k + 1) (fun x hx => hbs x (by simp [hx])) b hb

theorem asignar_invariante (durs : Nat → Int) (s : SimuladorAtencionPublico)
    (h : Invariante s) : Invariante (s.asignar_clientes_a_boxes durs) := by
  obtain ⟨h1, h2, h3, h4, h4b, h5, h6, h7⟩ := h
  unfold SimuladorAtencionPublico.asignar_clientes_a_boxes
  refine ⟨?_, h2, ?_, ?_, ?_, h5, h6, h7⟩
  · have := asignarAux_conserva s.tiempo_actual durs s.boxes s.cola 0
    dsimp only
    omega
  · intro c hc
    exact h3 c (asignarAux_cola_subconjunto s.tiempo_actual durs s.boxes s.cola 0 c hc)
  · exact asignarAux_boxes_ok s.tiempo_actual durs s.boxes s.cola 0
      (fun c hc => (h3 c hc).2.1) h4
  · exact asignarAux_libres s.tiempo_actual durs s.boxes s.cola 0 h4b

theorem debe_finalizar_ocupado {t : Int} {b : Box} (h : debe_finalizar t b = true) :
    b.ocupado = true := by
  simp only [debe_finalizar, Bool.and_eq_true] at h
  exact h.1.1

theorem debe_finalizar_isSome {t : Int} {b : Box} (h : debe_finalizar t b = true) :
    b.cliente_actual.isSome = true := by
  simp only [debe_finalizar, Bool.and_eq_true] at h
  exact h.2

theorem debe_finalizar_fin_le {t : Int} {b : Box} {f : Int}
    (h : debe_finalizar t b = true) (hf : b.tiempo_fin_atencion = some f) : f ≤ t := by
  simp only [debe_finalizar, Bool.and_eq_true, hf, Option.any_some, decide_eq_true_eq] at h
  exact h.1.2

theorem cuenta_ocupados_liberado (t : Int) :
    ∀ bs : List Box,
      cuenta_ocupados (bs.map (box_liberado t)) + (bs.filter (debe_finalizar t)).length
        = cuenta_ocupados bs := by
  intro bs
  induction bs with
  | nil => simp
  | cons b resto ih =>
    by_cases hd : debe_finalizar t b
    · have hocc := debe_finalizar_ocupado hd
      simp only [List.map_cons, List.filter_cons, hd, if_true, box_liberado,
        cuenta_ocupados_cons, List.length_cons, hocc, Bool.false_eq_true, if_false]
      omega
    · simp only [List.map_cons, List.filter_cons, hd, Bool.false_eq_true, if_false,
        box_liberado, cuenta_ocupados_cons]
      omega

theorem longitud_filterMap_isSome :
    ∀ l : List Box, (∀ b ∈ l, b.cliente_actual.isSome = true) →
      (l.filterMap (fun b => b.cliente_actual)).length = l.length := by
  intro l
  induction l with
  | nil => simp
  | cons b resto ih =>
    intro h
    obtain ⟨c, hc⟩ := Option.isSome_iff_exists.mp (h b (by simp))
    simp only [List.filterMap_cons, hc, List.length_cons]
    rw [ih (fun x hx => h x (by simp [hx]))]

theorem clientes_finalizados_longitud (t : Int) (bs : List Box) :
    (clientes_finalizados t bs).length = (bs.filter (debe_finalizar t)).length := by
  unfold clientes_finalizados
  rw [List.length_map, longitud_filterMap_isSome]
  intro b hb
  exact debe_finalizar_isSome (List.mem_filter.mp hb).2

theorem clientes_finalizados_ok (t : Int) (bs : List Box)
    (h : ∀ b ∈ bs, BoxOk t b) : ∀ c ∈ clientes_finalizados t bs, AtendidoOk c := by
  intro c hc
  unfold clientes_finalizados at hc
  simp only [List.mem_map, List.mem_filterMap, List.mem_filter] at hc
  obtain ⟨c0, ⟨b, ⟨hbmem, hdeb⟩, hcli⟩, rfl⟩ := hc
  obtain ⟨c1, f, i, hc1, hf, hi, h60, _, hab⟩ := h b hbmem (debe_finalizar_ocupado hdeb)
  rw [hc1, Option.some_inj] at hcli
  subst hcli
  have hft := debe_finalizar_fin_le hdeb hf
  exact ⟨i, t, hi, rfl, by omega, hab⟩

theorem box_liberado_libre (t : Int) (b : Box) (h : BoxLibre b) :
    BoxLibre (box_liberado t b) := by
  unfold box_liberado
  by_cases hd : debe_finalizar t b
  · simp [hd, BoxLibre]
  · simpa [hd] using h

theorem box_liberado_ok (t : Int) (b : Box) (h : BoxOk t b) : BoxOk (t + 1) (box_liberado t b) := by
  unfold box_liberado
  by_cases hd : debe_finalizar t b
  · simp [hd, BoxOk]
  · simp only [hd, Bool.false_eq_true, if_false]
    intro hocc
    obtain ⟨c, f, i, h1, h2, h3, h4, h5, h6⟩ := h hocc
    refine ⟨c, f, i, h1, h2, h3, h4, ?_, h6⟩
    have hnle : ¬ (f ≤ t) := by
      intro hle
      apply hd
      simp [debe_finalizar, hocc, h1, h2, hle]
    omega

theorem longitud_filtro_particion {α : Type} (p : α → Bool) :
    ∀ l : List α, (l.filter p).length + (l.filter (fun a => !(p a))).length = l.length := by
  intro l
  induction l with
  | nil => simp
  | cons a l ih =>
    by_cases hp : p a <;> simp only [List.filter_cons, hp, Bool.not_true, Bool.not_false,
      Bool.false_eq_true, if_true, if_false, List.length_cons] <;> omega

theorem tiempo_llegadas (llega : Bool) (s : SimuladorAtencionPublico) :
    (s.procesar_llegadas llega).tiempo_actual = s.tiempo_actual := by
  unfold SimuladorAtencionPublico.procesar_llegadas
  split
  · split <;> rfl
  · rfl

theorem tiempo_paso (llega : Bool) (durs : Nat → Int) (s : SimuladorAtencionPublico) :
    (s.simular_paso llega durs).tiempo_actual = s.tiempo_actual + 1 := by
  dsimp only [SimuladorAtencionPublico.simular_paso,
    SimuladorAtencionPublico.asignar_clientes_a_boxes,
    SimuladorAtencionPublico.procesar_finalizacion_atencion,
    SimuladorAtencionPublico.procesar_abandonos]
  rw [tiempo_llegadas]

theorem simular_paso_invariante (llega : Bool) (durs : Nat → Int)
    (s : SimuladorAtencionPublico) (h : Invariante s) :
    Invariante (s.simular_paso llega durs) := by
  have h2 := asignar_invariante durs _ (procesar_llegadas_invariante llega s h)
  generalize hs2 : (s.procesar_llegadas llega).asignar_clientes_a_boxes durs = s2 at h2
  obtain ⟨c1, c2, c3, c4, c4b, c5, c6, c7⟩ := h2
  unfold SimuladorAtencionPublico.simular_paso
  dsimp only
  rw [hs2]
  dsimp only [SimuladorAtencionPublico.procesar_finalizacion_atencion,
    SimuladorAtencionPublico.procesar_abandonos]
  refine ⟨?_, c2, ?_, ?_, ?_, ?_, ?_, ?_⟩
  · dsimp only
    have e1 := cuenta_ocupados_liberado s2.tiempo_actual s2.boxes
    have e2 := clientes_finalizados_longitud s2.tiempo_actual s2.boxes
    have e3 := longitud_filtro_particion (cond_abandono s2.tiempo_actual) s2.cola
    simp only [List.length_append, List.length_map]
    omega
  · intro c hc
    dsimp only at hc
    rw [List.mem_filter] at hc
    obtain ⟨hmem, hcond⟩ := hc
    obtain ⟨k1, k2, k3, k4, k5⟩ := c3 c hmem
    refine ⟨k1, k2, k3, k4, ?_⟩
    simp only [Bool.not_eq_eq_eq_not, Bool.not_true, cond_abandono,
      decide_eq_false_iff_not, not_le, valor_max_espera] at hcond
    simp only [valor_max_espera]
    omega
  · intro b hb
    dsimp only at hb
    rw [List.mem_map] at hb
    obtain ⟨b0, hb0, rfl⟩ := hb
    exact box_liberado_ok s2.tiempo_actual b0 (c4 b0 hb0)
  · intro b hb
    dsimp only at hb
    rw [List.mem_map] at hb
    obtain ⟨b0, hb0, rfl⟩ := hb
    exact box_liberado_libre s2.tiempo_actual b0 (c4b b0 hb0)
  · intro c hc
    dsimp only at hc
    rw [List.mem_append] at hc
    rcases hc with hc | hc
    · exact c5 c hc
    · exact clientes_finalizados_ok s2.tiempo_actual s2.boxes c4 c hc
  · intro c hc
    dsimp only at hc
    rw [List.mem_append] at hc
    rcases hc with hc | hc
    · exact c6 c hc
    · rw [List.mem_map] at hc
      obtain ⟨c0, hc0, rfl⟩ := hc
      rw [List.mem_filter] at hc0
      obtain ⟨hmem, hcond⟩ := hc0
      obtain ⟨k1, k2, k3, k4, k5⟩ := c3 c0 hmem
      refine ⟨rfl, k1, k3, s2.tiempo_actual, rfl, ?_⟩
      simpa [cond_abandono] using hcond
  · dsimp only
    omega

theorem alcanzable_invariante (s : SimuladorAtencionPublico) (h : Alcanzable s) :
    Invariante s := by
  induction h with
  | inicial nb v s hs =>
    unfold SimuladorAtencionPublico.inicializar at hs
    split at hs
    · exact Option.some_inj.mp hs ▸ invariante_inicial _ _
    · exact absurd hs (by simp)
  | paso llega durs s _ ih => exact simular_paso_invariante llega durs s ih

theorem correr_suma (llegas : Nat → Bool) (durs : Nat → Nat → Int) :
    ∀ (m k n : Nat) (s : SimuladorAtencionPublico),
      correr llegas durs k (m + n) s
        = correr llegas durs (k + m) n (correr llegas durs k m s) := by
  intro m
  induction m with
  | zero => intro k n s; simp [correr]
  | succ m ih =>
    intro k n s
    have e1 : m + 1 + n = m + n + 1 := by omega
    have e2 : k + (m + 1) = k + 1 + m := by omega
    rw [e1, e2]
    show correr llegas durs (k + 1) (m + n) (s.simular_paso (llegas k) (durs k)) = _
    rw [ih (k + 1) n]
    rfl

theorem tiempo_correr (llegas : Nat → Bool) (durs : Nat → Nat → Int) :
    ∀ (n k : Nat) (s : SimuladorAtencionPublico),
      (correr llegas durs k n s).tiempo_actual = s.tiempo_actual + n := by
  intro n
  induction n with
  | zero => intro k s; simp [correr]
  | succ n ih =>
    intro k s
    show (correr llegas durs (k + 1) n (s.simular_paso (llegas k) (durs k))).tiempo_actual = _
    rw [ih, tiempo_paso]
    push_cast
    omega

theorem alcanzable_correr (llegas : Nat → Bool) (durs : Nat → Nat → Int) :
    ∀ (n k : Nat) (s : SimuladorAtencionPublico),
      Alcanzable s → Alcanzable (correr llegas durs k n s) := by
  intro n
  induction n with
  | zero => intro k s h; exact h
  | succ n ih =>
    intro k s h
    exact ih (k + 1) _ (Alcanzable.paso _ _ _ h)

theorem cola_vacia_tarde (s : SimuladorAtencionPublico) (h : Invariante s)
    (ht : DURACION_SIMULACION + TIEMPO_MAX_ESPERA ≤ s.tiempo_actual) : s.cola = [] := by
  cases hc : s.cola with
  | nil => rfl
  | cons c resto =>
    exfalso
    obtain ⟨-, -, -, h4, h5⟩ := h.cola_ok c (by rw [hc]; exact List.mem_cons_self c resto)
    omega

/-- Past the horizon with an empty queue: the regime in which the engine only
drains its occupied boxes. -/
def Drenado (s : SimuladorAtencionPublico) : Prop :=
  DURACION_SIMULACION ≤ s.tiempo_actual ∧ s.cola = [] ∧ ∀ b ∈ s.boxes, BoxOk s.tiempo_actual b

/-- Remaining work of one box at tick `t`: the number of ticks (inclusive)
until its completion fires. -/
def contrib (t : Int) (b : Box) : Nat :=
  if b.ocupado then
    match b.tiempo_fin_atencion with
    | some f => (f + 1 - t).toNat
    | none => 0
  else 0

/-- Remaining total work of the boxes: the termination measure of the drained
regime. -/
def medida (s : SimuladorAtencionPublico) : Nat :=
  (s.boxes.map (contrib s.tiempo_actual)).sum

theorem contrib_liberado (t : Int) (b : Box) (h : BoxOk t b) :
    contrib (t + 1) (box_liberado t b) ≤ contrib t b ∧
      (b.ocupado = true → contrib (t + 1) (box_liberado t b) < contrib t b) := by
  by_cases hocc : b.ocupado = true
  · obtain ⟨c, f, i, h1, h2, -, -, htf, -⟩ := h hocc
    by_cases hle : f ≤ t
    · have hd : debe_finalizar t b = true := by
        simp [debe_finalizar, hocc, h1, h2, hle]
      simp only [box_liberado, hd, if_true, contrib, hocc, h2, Bool.false_eq_true, if_false]
      constructor
      · exact Nat.zero_le _
      · intro _
        omega
    · have hd : debe_finalizar t b = false := by
        simp [debe_finalizar, hocc, h1, h2, hle]
      simp only [box_liberado, hd, Bool.false_eq_true, if_false, contrib, hocc, if_true, h2]
      omega
  · have hd : debe_finalizar t b = false := by
      simp [debe_finalizar, Bool.eq_false_iff, hocc]
    simp only [box_liberado, hd, Bool.false_eq_true, if_false, contrib, hocc]
    simp [hocc]

theorem suma_mapa_le {α : Type} (f g : α → Nat) :
    ∀ l : List α, (∀ x ∈ l, g x ≤ f x) → (l.map g).sum ≤ (l.map f).sum := by
  intro l
  induction l with
  | nil => simp
  | cons a l ih =>
    intro h
    simp only [List.map_cons, List.sum_cons]
    have h1 := h a (by simp)
    have h2 := ih (fun y hy => h y (by simp [hy]))
    omega

theorem suma_mapa_lt {α : Type} (f g : α → Nat) :
    ∀ l : List α, (∀ x ∈ l, g x ≤ f x) → (∃ x ∈ l, g x < f x) →
      (l.map g).sum < (l.map f).sum := by
  intro l
  induction l with
  | nil =>
    rintro - ⟨x, hx, -⟩
    simp at hx
  | cons a l ih =>
    rintro hle ⟨x, hx, hlt⟩
    simp only [List.map_cons, List.sum_cons]
    rcases List.mem_cons.mp hx with rfl | hx
    · have h2 := suma_mapa_le f g l (fun y hy => hle y (by simp [hy]))
      omega
    · have h1 := hle a (by simp)
      have h2 := ih (fun y hy => hle y (by simp [hy])) ⟨x, hx, hlt⟩
      omega

theorem llegadas_sin (llega : Bool) (s : SimuladorAtencionPublico)
    (h : DURACION_SIMULACION ≤ s.tiempo_actual) : s.procesar_llegadas llega = s := by
  unfold SimuladorAtencionPublico.procesar_llegadas
  rw [if_neg (by omega)]

theorem asignar_vacia (durs : Nat → Int) (s : SimuladorAtencionPublico)
    (h : s.cola = []) : s.asignar_clientes_a_boxes durs = s := by
  unfold SimuladorAtencionPublico.asignar_clientes_a_boxes
  rw [h, asignarAux_nil]
  rw [← h]

theorem paso_drenado (llega : Bool) (durs : Nat → Int) (s : SimuladorAtencionPublico)
    (hd : Drenado s) :
    (s.simular_paso llega durs).cola = [] ∧
      (s.simular_paso llega durs).boxes = s.boxes.map (box_liberado s.tiempo_actual) := by
  obtain ⟨h1, h2, h3⟩ := hd
  unfold SimuladorAtencionPublico.simular_paso
  dsimp only
  rw [llegadas_sin llega s h1, asignar_vacia durs s h2]
  dsimp only [SimuladorAtencionPublico.procesar_finalizacion_atencion,
    SimuladorAtencionPublico.procesar_abandonos]
  rw [h2]
  exact ⟨rfl, rfl⟩

theorem drenado_paso (llega : Bool) (durs : Nat → Int) (s : SimuladorAtencionPublico)
    (hd : Drenado s) : Drenado (s.simular_paso llega durs) := by
  obtain ⟨hA, hB⟩ := paso_drenado llega durs s hd
  refine ⟨?_, hA, ?_⟩
  · rw [tiempo_paso]
    have := hd.1
    omega
  · rw [hB, tiempo_paso]
    intro b hb
    rw [List.mem_map] at hb
    obtain ⟨b0, hb0, rfl⟩ := hb
    exact box_liberado_ok s.tiempo_actual b0 (hd.2.2 b0 hb0)

theorem medida_paso_lt (llega : Bool) (durs : Nat → Int) (s : SimuladorAtencionPublico)
    (hd : Drenado s) (hocc : s.boxes.any (fun b => b.ocupado) = true) :
    medida (s.simular_paso llega durs) < medida s := by
  obtain ⟨-, hB⟩ := paso_drenado llega durs s hd
  unfold medida
  rw [hB, tiempo_paso, List.map_map]
  apply suma_mapa_lt
  · intro b hb
    exact (contrib_liberado s.tiempo_actual b (hd.2.2 b hb)).1
  · rw [List.any_eq_true] at hocc
    obtain ⟨b, hb, hbocc⟩ := hocc
    exact ⟨b, hb, (contrib_liberado s.tiempo_actual b (hd.2.2 b hb)).2 hbocc⟩

theorem medida_pos (s : SimuladorAtencionPublico)
    (h3 : ∀ b ∈ s.boxes, BoxOk s.tiempo_actual b)
    (hocc : s.boxes.any (fun b => b.ocupado) = true) : 1 ≤ medida s := by
  rw [List.any_eq_true] at hocc
  obtain ⟨b, hb, hbocc⟩ := hocc
  obtain ⟨c, f, i, h1, h2, -, -, htf, -⟩ := h3 b hb hbocc
  have hc : 1 ≤ contrib s.tiempo_actual b := by
    simp only [contrib, hbocc, if_true, h2]
    omega
  calc 1 ≤ contrib s.tiempo_actual b := hc
    _ ≤ medida s :=
      List.single_le_sum (fun x _ => Nat.zero_le x) _
        (List.mem_map_of_mem (contrib s.tiempo_actual) hb)

theorem drenado_termina (llegas : Nat → Bool) (durs : Nat → Nat → Int) :
    ∀ (m : Nat) (s : SimuladorAtencionPublico), Drenado s → medida s ≤ m →
      ∀ k : Nat, ∃ n, (correr llegas durs k n s).condicion_finalizacion = true := by
  intro m
  induction m with
  | zero =>
    intro s hd hm k
    by_cases hocc : s.boxes.any (fun b => b.ocupado) = true
    · exact absurd hm (by have := medida_pos s hd.2.2 hocc; omega)
    · refine ⟨0, ?_⟩
      show s.condicion_finalizacion = true
      unfold SimuladorAtencionPublico.condicion_finalizacion
      simp [hd.1, hd.2.1, hocc]
  | succ m ih =>
    intro s hd hm k
    by_cases hocc : s.boxes.any (fun b => b.ocupado) = true
    · obtain ⟨n, hn⟩ := ih (s.simular_paso (llegas k) (durs k))
        (drenado_paso (llegas k) (durs k) s hd)
        (by have := medida_paso_lt (llegas k) (durs k) s hd hocc; omega) (k + 1)
      exact ⟨n + 1, hn⟩
    · refine ⟨0, ?_⟩
      show s.condicion_finalizacion = true
      unfold SimuladorAtencionPublico.condicion_finalizacion
      simp [hd.1, hd.2.1, hocc]

theorem alcanzable_termina (s : SimuladorAtencionPublico) (h : Alcanzable s)
    (llegas : Nat → Bool) (durs : Nat → Nat → Int) :
    ∃ n, (correr llegas durs 0 n s).condicion_finalizacion = true := by
  obtain ⟨hreach, ht1⟩ :
      Alcanzable (correr llegas durs 0
          (DURACION_SIMULACION + TIEMPO_MAX_ESPERA - s.tiempo_actual).toNat s) ∧
        DURACION_SIMULACION + TIEMPO_MAX_ESPERA ≤
          (correr llegas durs 0
            (DURACION_SIMULACION + TIEMPO_MAX_ESPERA - s.tiempo_actual).toNat s).tiempo_actual := by
    constructor
    · exact alcanzable_correr llegas durs _ 0 s h
    · rw [tiempo_correr]
      omega
  have hinv1 := alcanzable_invariante _ hreach
  have hcola := cola_vacia_tarde _ hinv1 ht1
  have hdren : Drenado (correr llegas durs 0
      (DURACION_SIMULACION + TIEMPO_MAX_ESPERA - s.tiempo_actual).toNat s) := by
    refine ⟨?_, hcola, hinv1.boxes_ok⟩
    have : (0 : Int) ≤ TIEMPO_MAX_ESPERA := by decide
    omega
  obtain ⟨n, hn⟩ := drenado_termina llegas durs (medida _) _ hdren le_rfl
    (DURACION_SIMULACION + TIEMPO_MAX_ESPERA - s.tiempo_actual).toNat
  refine ⟨(DURACION_SIMULACION + TIEMPO_MAX_ESPERA - s.tiempo_actual).toNat + n, ?_⟩
  rw [correr_suma]
  simpa using hn

/-! ### Claim theorems -/

/-- The customer sitting in box 0 after one tick of a two-box engine whose
first arrival succeeded (used to instantiate the exclusivity claim). -/
def cliente_testigo : Cliente :=
  { id := 0, tiempo_ingreso := 0, tiempo_inicio_atencion := some 0, box_asignado := some 0 }

/-- The occupied box holding `cliente_testigo` after that same tick. -/
def box_testigo : Box :=
  { id := 0, ocupado := true, cliente_actual := some cliente_testigo,
    tiempo_fin_atencion := some 300 }

/-- C1: conservation of customers.  In every reachable state of the engine the
queue length plus the number of occupied boxes plus the number of served
customers plus the number of abandoned customers equals the number of arrived
customers. -/
theorem conservacion_clientes (s : SimuladorAtencionPublico) (h : Alcanzable s) :
    s.cola.length + cuenta_ocupados s.boxes + s.clientes_atendidos.length +
      s.clientes_abandonaron.length = s.clientes_ingresados.length :=
  (alcanzable_invariante s h).conserva

theorem conservacion_clientes_testigo :
    ((estado_inicial 3 1).simular_paso true (fun _ => 0)).cola.length +
        cuenta_ocupados ((estado_inicial 3 1).simular_paso true (fun _ => 0)).boxes +
        ((estado_inicial 3 1).simular_paso true (fun _ => 0)).clientes_atendidos.length +
        ((estado_inicial 3 1).simular_paso true (fun _ => 0)).clientes_abandonaron.length
      = ((estado_inicial 3 1).simular_paso true (fun _ => 0)).clientes_ingresados.length :=
  conservacion_clientes _
    (Alcanzable.paso true (fun _ => 0) _ (Alcanzable.inicial 3 1 _ (by decide)))

/-- C2: exclusive terminal disposition.  In every reachable state, queued
customers have neither a service start nor the abandonment flag; a customer
held by a box has its service start set and is not abandoned (so an abandoned
customer is never assigned a station); served customers are never abandoned;
and abandoned customers never got a service start nor an assigned station. -/
theorem disposicion_exclusiva (s : SimuladorAtencionPublico) (h : Alcanzable s) :
    (∀ c ∈ s.cola, c.tiempo_inicio_atencion = none ∧ c.abandono = false) ∧
    (∀ b ∈ s.boxes, ∀ c, b.cliente_actual = some c →
        c.tiempo_inicio_atencion.isSome = true ∧ c.abandono = false) ∧
    (∀ c ∈ s.clientes_atendidos, c.tiempo_inicio_atencion.isSome = true ∧ c.abandono = false) ∧
    (∀ c ∈ s.clientes_abandonaron,
        c.abandono = true ∧ c.tiempo_inicio_atencion = none ∧ c.box_asignado = none) := by
  obtain ⟨-, -, h3, h4, h4b, h5, h6, -⟩ := alcanzable_invariante s h
  refine ⟨?_, ?_, ?_, ?_⟩
  · intro c hc
    exact ⟨(h3 c hc).1, (h3 c hc).2.1⟩
  · intro b hb c hc
    cases hocc : b.ocupado with
    | true =>
      obtain ⟨c0, f, i, k1, -, k3, -, -, k6⟩ := h4 b hb hocc
      rw [k1, Option.some_inj] at hc
      subst hc
      exact ⟨by rw [k3]; rfl, k6⟩
    | false =>
      rw [(h4b b hb hocc).1] at hc
      exact absurd hc (by simp)
  · intro c hc
    obtain ⟨i, f, k1, -, -, k4⟩ := h5 c hc
    exact ⟨by rw [k1]; rfl, k4⟩
  · intro c hc
    obtain ⟨k1, k2, k3, -⟩ := h6 c hc
    exact ⟨k1, k2, k3⟩

theorem disposicion_exclusiva_testigo :
    cliente_testigo.tiempo_inicio_atencion.isSome = true ∧
      cliente_testigo.abandono = false :=
  (disposicion_exclusiva ((estado_inicial 2 1).simular_paso true (fun _ => 300))
      (Alcanzable.paso true (fun _ => 300) _ (Alcanzable.inicial 2 1 _ (by decide)))).2.1
    box_testigo (by decide) cliente_testigo rfl

/-- C3: the termination predicate holds exactly when the current tick has
reached the horizon, the queue is empty and no box is occupied; in particular
it is false while any box is occupied or the queue is non-empty, even past the
horizon. -/
theorem condicion_finalizacion_correcta (s : SimuladorAtencionPublico) :
    s.condicion_finalizacion = true ↔
      DURACION_SIMULACION ≤ s.tiempo_actual ∧ s.cola = [] ∧
        ∀ b ∈ s.boxes, b.ocupado = false := by
  unfold SimuladorAtencionPublico.condicion_finalizacion
  simp only [Bool.and_eq_true, decide_eq_true_eq, List.isEmpty_iff, Bool.not_eq_true',
    List.any_eq_false, and_assoc, Bool.not_eq_true]

/-- C4: minimum service floor.  `generar_tiempo_atencion` always returns at
least 60 seconds, and every served customer of every reachable state has
`tiempo_inicio_atencion ≤ tiempo_fin_atencion` with a difference of at least
60 seconds. -/
theorem piso_minimo_servicio (draw : Int) (s : SimuladorAtencionPublico) (h : Alcanzable s) :
    60 ≤ generar_tiempo_atencion draw ∧
    ∀ c ∈ s.clientes_atendidos, ∃ i f,
      c.tiempo_inicio_atencion = some i ∧ c.tiempo_fin_atencion = some f ∧
        i ≤ f ∧ 60 ≤ f - i := by
  refine ⟨le_max_left _ _, ?_⟩
  intro c hc
  obtain ⟨i, f, k1, k2, k3, -⟩ := (alcanzable_invariante s h).atendidos_ok c hc
  exact ⟨i, f, k1, k2, by omega, by omega⟩

theorem piso_minimo_servicio_testigo :
    60 ≤ generar_tiempo_atencion (-500) ∧
    ∀ c ∈ (estado_inicial 1 1).clientes_atendidos, ∃ i f,
      c.tiempo_inicio_atencion = some i ∧ c.tiempo_fin_atencion = some f ∧
        i ≤ f ∧ 60 ≤ f - i :=
  piso_minimo_servicio (-500) _ (Alcanzable.inicial 1 1 _ (by decide))

/-- C5: abandonment threshold.  Every customer in the abandoned record of a
reachable state was stamped with an abandonment tick at least
`TIEMPO_MAX_ESPERA` seconds after its arrival tick, and is no longer in the
queue. -/
theorem umbral_abandono (s : SimuladorAtencionPublico) (h : Alcanzable s) :
    ∀ c ∈ s.clientes_abandonaron,
      (∃ a, c.tiempo_abandono = some a ∧ TIEMPO_MAX_ESPERA ≤ a - c.tiempo_ingreso) ∧
        c ∉ s.cola := by
  obtain ⟨-, -, h3, -, -, -, h6, -⟩ := alcanzable_invariante s h
  intro c hc
  obtain ⟨k1, -, -, a, k4, k5⟩ := h6 c hc
  refine ⟨⟨a, k4, k5⟩, ?_⟩
  intro hcola
  have := (h3 c hcola).2.1
  rw [k1] at this
  exact absurd this (by simp)

theorem umbral_abandono_testigo :
    (0 : Int) < TIEMPO_MAX_ESPERA ∧
    ∀ c ∈ (estado_inicial 4 1).clientes_abandonaron,
      (∃ a, c.tiempo_abandono = some a ∧ TIEMPO_MAX_ESPERA ≤ a - c.tiempo_ingreso) ∧
        c ∉ (estado_inicial 4 1).cola :=
  ⟨by decide, umbral_abandono _ (Alcanzable.inicial 4 1 _ (by decide))⟩

/-- C6: final cost formula.  `calcular_costos` sets
`costo_total = num_boxes * COSTO_BOX + |clientes_abandonaron| * PERDIDA_CLIENTE`,
and with no abandoned customers the total is exactly `num_boxes * 1000`. -/
theorem formula_costo (s : SimuladorAtencionPublico) :
    s.calcular_costos.estadisticas.costo_total =
      (s.num_boxes : Int) * COSTO_BOX +
        (s.clientes_abandonaron.length : Int) * PERDIDA_CLIENTE ∧
    (s.clientes_abandonaron = [] →
      s.calcular_costos.estadisticas.costo_total = (s.num_boxes : Int) * 1000) := by
  refine ⟨rfl, ?_⟩
  intro hvacio
  unfold SimuladorAtencionPublico.calcular_costos
  dsimp only
  rw [hvacio]
  show (s.num_boxes : Int) * COSTO_BOX + (0 : Int) * PERDIDA_CLIENTE = (s.num_boxes : Int) * 1000
  rw [show COSTO_BOX = 1000 from rfl]
  ring

theorem formula_costo_testigo :
    (estado_inicial 2 1).calcular_costos.estadisticas.costo_total =
      (((estado_inicial 2 1).num_boxes : Nat) : Int) * 1000 :=
  (formula_costo (estado_inicial 2 1)).2 rfl

/-- C7: hard arrival cutoff and arrival bookkeeping.  A `simular_paso` at a
tick at or past the horizon creates no customer; a successful arrival below
the horizon appends to the queue tail and to the ingested record a customer
with the next sequential id (the count of customers created so far, which in a
reachable state equals the length of the ingested record) and the current tick
as arrival time. -/
theorem llegadas_corte_y_registro (s : SimuladorAtencionPublico) (llega : Bool)
    (durs : Nat → Int) :
    (DURACION_SIMULACION ≤ s.tiempo_actual →
      (s.simular_paso llega durs).contador_clientes = s.contador_clientes ∧
      (s.simular_paso llega durs).clientes_ingresados = s.clientes_ingresados) ∧
    (s.tiempo_actual < DURACION_SIMULACION → llega = true →
      (s.procesar_llegadas llega).cola
          = s.cola ++ [{ id := s.contador_clientes, tiempo_ingreso := s.tiempo_actual }] ∧
      (s.procesar_llegadas llega).clientes_ingresados
          = s.clientes_ingresados ++
              [{ id := s.contador_clientes, tiempo_ingreso := s.tiempo_actual }] ∧
      (s.procesar_llegadas llega).contador_clientes = s.contador_clientes + 1) ∧
    (Alcanzable s → s.contador_clientes = s.clientes_ingresados.length) := by
  refine ⟨?_, ?_, fun h => (alcanzable_invariante s h).contador_eq⟩
  · intro ht
    unfold SimuladorAtencionPublico.simular_paso
    dsimp only
    rw [llegadas_sin llega s ht]
    dsimp only [SimuladorAtencionPublico.asignar_clientes_a_boxes,
      SimuladorAtencionPublico.procesar_finalizacion_atencion,
      SimuladorAtencionPublico.procesar_abandonos]
    exact ⟨rfl, rfl⟩
  · intro ht hllega
    subst hllega
    unfold SimuladorAtencionPublico.procesar_llegadas
    rw [if_pos ht, if_pos rfl]
    exact ⟨rfl, rfl, rfl⟩

theorem llegadas_corte_y_registro_testigo :
    (({ estado_inicial 1 1 with tiempo_actual := DURACION_SIMULACION }).simular_paso
          true (fun _ => 0)).contador_clientes
        = ({ estado_inicial 1 1 with tiempo_actual := DURACION_SIMULACION }).contador_clientes ∧
    ((estado_inicial 1 1).procesar_llegadas true).cola
        = (estado_inicial 1 1).cola ++ [{ id := 0, tiempo_ingreso := 0 }] ∧
    (estado_inicial 1 1).contador_clientes = (estado_inicial 1 1).clientes_ingresados.length := by
  refine ⟨?_, ?_, ?_⟩
  · exact ((llegadas_corte_y_registro _ true (fun _ => 0)).1 le_rfl).1
  · exact ((llegadas_corte_y_registro (estado_inicial 1 1) true (fun _ => 0)).2.1
      (by decide) rfl).1
  · exact (llegadas_corte_y_registro (estado_inicial 1 1) true (fun _ => 0)).2.2
      (Alcanzable.inicial 1 1 _ (by decide))

/-- C8 (counterexample): the constructor accepts a negative value for its
rate-like parameter `velocidad_animacion` without failing, refuting the claim
that any negative rate or duration parameter fails construction. -/
theorem validacion_construccion_contraejemplo :
    (SimuladorAtencionPublico.inicializar 5 (-1)).isSome = true ∧ ((-1 : Rat) < 0) := by
  constructor
  · rfl
  · decide

/-- C8 (amended): construction fails, returning no engine at all, exactly when
the station count lies outside `[1, 10]`; on success the returned engine is
the fully initialised fresh state, and no other constructor parameter is
validated. -/
theorem validacion_construccion (nb : Int) (v : Rat) :
    (SimuladorAtencionPublico.inicializar nb v = none ↔ (nb < 1 ∨ 10 < nb)) ∧
    (∀ s, SimuladorAtencionPublico.inicializar nb v = some s → s = estado_inicial nb.toNat v) := by
  unfold SimuladorAtencionPublico.inicializar
  by_cases h : 1 ≤ nb ∧ nb ≤ 10
  · rw [if_pos h]
    refine ⟨by simp; omega, ?_⟩
    intro s hs
    exact (Option.some_inj.mp hs).symm
  · rw [if_neg h]
    refine ⟨by simp; omega, ?_⟩
    intro s hs
    exact absurd hs (by simp)

theorem validacion_construccion_testigo :
    (SimuladorAtencionPublico.inicializar 0 1 = none ↔ ((0 : Int) < 1 ∨ 10 < (0 : Int))) ∧
    estado_inicial 3 1 = estado_inicial ((3 : Int)).toNat 1 :=
  ⟨(validacion_construccion 0 1).1,
    (validacion_construccion 3 1).2 (estado_inicial 3 1) rfl⟩

/-- C9: determinism.  Two engines constructed with identical configuration and
stepped under the same sequences of random draws produce identical states and
hence identical final statistics. -/
theorem determinismo_simulacion (nb : Int) (v : Rat) (s1 s2 : SimuladorAtencionPublico)
    (h1 : SimuladorAtencionPublico.inicializar nb v = some s1)
    (h2 : SimuladorAtencionPublico.inicializar nb v = some s2)
    (llegas : Nat → Bool) (durs : Nat → Nat → Int) (fuel : Nat) :
    (ejecutar_simulacion_rapida llegas durs 0 fuel s1).estadisticas
      = (ejecutar_simulacion_rapida llegas durs 0 fuel s2).estadisticas ∧
    ejecutar_simulacion_rapida llegas durs 0 fuel s1
      = ejecutar_simulacion_rapida llegas durs 0 fuel s2 := by
  rw [h1] at h2
  rw [Option.some_inj.mp h2]
  exact ⟨rfl, rfl⟩

theorem determinismo_simulacion_testigo :
    (ejecutar_simulacion_rapida (fun _ => false) (fun _ _ => 0) 0 5
        (estado_inicial 2 1)).estadisticas
      = (ejecutar_simulacion_rapida (fun _ => false) (fun _ _ => 0) 0 5
        (estado_inicial 2 1)).estadisticas :=
  (determinismo_simulacion 2 1 _ _ rfl rfl (fun _ => false) (fun _ _ => 0) 5).1

/-- C10: the simulation always terminates.  From any reachable state and for
every sequence of random draws, some finite number of further `simular_paso`
iterations makes `condicion_finalizacion` true. -/
theorem terminacion_simulacion (s : SimuladorAtencionPublico) (h : Alcanzable s)
    (llegas : Nat → Bool) (durs : Nat → Nat → Int) :
    ∃ n, (correr llegas durs 0 n s).condicion_finalizacion = true :=
  alcanzable_termina s h llegas durs

theorem terminacion_simulacion_testigo :
    ∃ n, (correr (fun _ => false) (fun _ _ => 0) 0 n
      (estado_inicial 1 1)).condicion_finalizacion = true :=
  terminacion_simulacion _ (Alcanzable.inicial 1 1 _ (by decide))
    (fun _ => false) (fun _ _ => 0)

end SimBoxes
